import Mathlib

/-!
Verification of the procedural vessel-geometry and CAM core of the
Ceramic-3D-printing repository.

The TypeScript source is shallowly embedded: JavaScript numbers are modelled
as real numbers (`ℝ`), `Math.sin`/`Math.cos`/`Math.sqrt`/`Math.PI` as
`Real.sin`/`Real.cos`/`Real.sqrt`/`Real.pi`, the binary `%` operator on
numbers as truncated remainder (`jsMod` below, matching JS fmod semantics on
finite operands), and growable arrays as lists.  Real division by zero is `0`
in Lean where JavaScript produces `NaN`/`Infinity`; every place where that
divergence could matter is noted at the theorem concerned.
-/

namespace Ceramic

noncomputable section

/-- The optional displacement texture (src/types.ts `TextureData`): a
row-major grid of 8-bit luminance samples with explicit size. -/
structure TextureData where
  data : List ℕ
  width : ℕ
  height : ℕ

/-- Vessel configuration (src/types.ts `VesselParams`).  `layers` and
`segments` are the integer resolution sliders (modelled as `ℕ`; the loops in
the source do nothing for negative values, and the malformed value relevant
to validation is `0`).  The UI-only fields (`exportFormat`, `printerType`,
`textureImage`) play no part in the geometry and are omitted. -/
structure VesselParams where
  height : ℝ
  baseRadius : ℝ
  noiseScale : ℝ
  noiseFrequency : ℝ
  layers : ℕ
  twist : ℝ
  segments : ℕ
  wallThickness : ℝ
  nozzleDiameter : ℝ
  filamentDiameter : ℝ
  printSpeed : ℝ
  textureInfluence : ℝ

/-- The value returned by `calculateVesselPoint`: Cartesian position plus the
evaluated radius. -/
structure SurfacePoint where
  x : ℝ
  y : ℝ
  z : ℝ
  r : ℝ

/-- A triangulated mesh: flat vertex-coordinate buffer (triples, in push
order) and a flat triangle index buffer. -/
structure Mesh where
  vertices : List ℝ
  indices : List ℕ

/-- The statistics record (src/types.ts `PrintStats`). -/
structure PrintStats where
  estimatedTime : ℝ
  filamentLength : ℝ
  filamentWeight : ℝ
  layerHeight : ℝ
  totalLayers : ℕ

/-- JavaScript's `Math.trunc`-style rounding toward zero, the integer part
underlying the `%` operator on numbers. -/
def jsTrunc (a : ℝ) : ℤ := if 0 ≤ a then ⌊a⌋ else ⌈a⌉

/-- JavaScript's binary `%` on finite numbers: the remainder of truncated
division, `a - b * trunc (a / b)`. -/
def jsMod (a b : ℝ) : ℝ := a - b * jsTrunc (a / b)

/-! ### Texture sampling (src/unnamed/part_000, lines 39-68)

The locals of the bilinear-sampling block of `calculateVesselPoint` are
lifted to named functions of the texture and the parametric coordinates so
that the index claims can speak about them directly. -/

/-- `texX = (u * textureData.width) % textureData.width` (line 39). -/
def texX (t : TextureData) (u : ℝ) : ℝ := jsMod (u * t.width) t.width

/-- `texY = ((1 - v) * textureData.height) % textureData.height` (line 41). -/
def texY (t : TextureData) (v : ℝ) : ℝ := jsMod ((1 - v) * t.height) t.height

/-- `x1 = Math.floor(texX)` (line 43). -/
def x1 (t : TextureData) (u : ℝ) : ℤ := ⌊texX t u⌋

/-- `y1 = Math.floor(texY)` (line 44). -/
def y1 (t : TextureData) (v : ℝ) : ℤ := ⌊texY t v⌋

/-- `x2 = (x1 + 1) % textureData.width` (line 49); the JS `%` on these
integer-valued operands is the truncated remainder `Int.tmod`. -/
def x2 (t : TextureData) (u : ℝ) : ℤ := (x1 t u + 1).tmod t.width

/-- `y2 = (y1 + 1) < textureData.height ? y1 + 1 : y1` (line 50). -/
def y2 (t : TextureData) (v : ℝ) : ℤ :=
  if y1 t v + 1 < (t.height : ℤ) then y1 t v + 1 else y1 t v

/-- `i11 = (y1 * textureData.width) + x1` (line 55). -/
def i11 (t : TextureData) (u v : ℝ) : ℤ := y1 t v * t.width + x1 t u

/-- `i21 = (y1 * textureData.width) + x2` (line 56). -/
def i21 (t : TextureData) (u v : ℝ) : ℤ := y1 t v * t.width + x2 t u

/-- `i12 = (y2 * textureData.width) + x1` (line 57). -/
def i12 (t : TextureData) (u v : ℝ) : ℤ := y2 t v * t.width + x1 t u

/-- `i22 = (y2 * textureData.width) + x2` (line 58). -/
def i22 (t : TextureData) (u v : ℝ) : ℤ := y2 t v * t.width + x2 t u

/-- Luminance-array read `textureData.data[i]`.  An out-of-range read is
modelled as `0` (JavaScript would yield `undefined` and poison the arithmetic
with `NaN`; the in-bounds claim shows the indices used are in range for a
well-formed texture). -/
def texAt (t : TextureData) (i : ℤ) : ℝ :=
  if 0 ≤ i then (t.data.getD i.toNat 0 : ℝ) else 0

/-- The bilinearly interpolated, `[0,1]`-normalised sample (lines 52-68). -/
def texVal (t : TextureData) (u v : ℝ) : ℝ :=
  let dx := texX t u - x1 t u
  let dy := texY t v - y1 t v
  ((texAt t (i11 t u v) * (1 - dx) + texAt t (i21 t u v) * dx) * (1 - dy) +
   (texAt t (i12 t u v) * (1 - dx) + texAt t (i22 t u v) * dx) * dy) / 255

/-- The parametric surface evaluator `calculateVesselPoint`
(src/unnamed/part_000, lines 3-85).  Argument order and defaults follow the
source: `(params, u, v, radiusOffset = 0, heightOffset = 0, heightScale = 1,
textureData = null)`. -/
def calculateVesselPoint (params : VesselParams) (u v radiusOffset heightOffset heightScale : ℝ)
    (textureData : Option TextureData) : SurfacePoint :=
  let cy := v * params.height * heightScale + heightOffset
  let theta := u * Real.pi * 2
  let twistOffset := v * params.twist
  let noiseVal := Real.sin ((theta + twistOffset) * params.noiseFrequency) *
                  Real.cos (v * params.height * params.noiseFrequency * 0.5)
  let rNoise := params.baseRadius + noiseVal * params.noiseScale * (1 - (v - 0.5) ^ 2 * 0.5)
  let rTex :=
    match textureData with
    | some t => if 0 < params.textureInfluence
                then rNoise + texVal t u v * params.textureInfluence else rNoise
    | none => rNoise
  let rOff := rTex + radiusOffset
  let r := if rOff < 0.1 then 0.1 else rOff
  ⟨r * Real.cos theta, cy, r * Real.sin theta, r⟩

/-! ### Mesh generation (src/unnamed/part_000, lines 87-225) -/

/-- One full `(layers+1) × (segments+1)` grid of surface points, in the push
order of the generation loops (outer loop over rows `y`, inner loop over
columns `x`). -/
def gridPoints (params : VesselParams) (radiusOffset heightOffset heightScale : ℝ)
    (tex : Option TextureData) : List SurfacePoint :=
  (List.range (params.layers + 1)).flatMap fun (y : ℕ) =>
    (List.range (params.segments + 1)).map fun (x : ℕ) =>
      calculateVesselPoint params ((x : ℝ) / params.segments) ((y : ℝ) / params.layers)
        radiusOffset heightOffset heightScale tex

/-- The outer-shell grid (offsets `0, 0, 1`; lines 94-101 and 124-131). -/
def outerGrid (params : VesselParams) (tex : Option TextureData) : List SurfacePoint :=
  gridPoints params 0 0 1 tex

/-- The inner-shell grid: `radiusOffset = -wallThickness`,
`heightOffset = +wallThickness`,
`heightScale = (height - wallThickness) / height` (lines 138-150). -/
def innerGrid (params : VesselParams) (tex : Option TextureData) : List SurfacePoint :=
  gridPoints params (-params.wallThickness) params.wallThickness
    ((params.height - params.wallThickness) / params.height) tex

/-- The three coordinates a surface point contributes to the flat vertex
buffer (`vertices.push(p.x, p.y, p.z)`). -/
def coords (p : SurfacePoint) : List ℝ := [p.x, p.y, p.z]

/-- Vase-mode triangle indices (lines 103-112): per cell, triangles
`(a, c, b)` and `(b, c, d)`. -/
def vaseIndices (layers segments : ℕ) : List ℕ :=
  (List.range layers).flatMap fun y =>
    (List.range segments).flatMap fun x =>
      [y * (segments + 1) + x, (y + 1) * (segments + 1) + x, y * (segments + 1) + x + 1,
       y * (segments + 1) + x + 1, (y + 1) * (segments + 1) + x, (y + 1) * (segments + 1) + x + 1]

/-- `addQuad(p1, p2, p3, p4)` (lines 153-156): triangles `(p1, p2, p3)` and
`(p3, p2, p4)`. -/
def addQuad (p1 p2 p3 p4 : ℕ) : List ℕ := [p1, p2, p3, p3, p2, p4]

/-- Outer-shell stitching of the solid mesh (lines 159-170). -/
def outerShellIndices (layers segments : ℕ) : List ℕ :=
  (List.range layers).flatMap fun y =>
    (List.range segments).flatMap fun x =>
      addQuad (y * (segments + 1) + x) ((y + 1) * (segments + 1) + x)
        (y * (segments + 1) + x + 1) ((y + 1) * (segments + 1) + x + 1)

/-- Inner-shell stitching, winding flipped (lines 173-186);
`innerOffset = numRows * vertsPerRow`. -/
def innerShellIndices (layers segments : ℕ) : List ℕ :=
  (List.range layers).flatMap fun y =>
    (List.range segments).flatMap fun x =>
      addQuad ((layers + 1) * (segments + 1) + y * (segments + 1) + x + 1)
        ((layers + 1) * (segments + 1) + (y + 1) * (segments + 1) + x + 1)
        ((layers + 1) * (segments + 1) + y * (segments + 1) + x)
        ((layers + 1) * (segments + 1) + (y + 1) * (segments + 1) + x)

/-- Top-rim stitching (lines 190-200), connecting the top outer ring to the
top inner ring. -/
def rimIndices (layers segments : ℕ) : List ℕ :=
  (List.range segments).flatMap fun x =>
    addQuad (layers * (segments + 1) + x) (layers * (segments + 1) + x + 1)
      ((layers + 1) * (segments + 1) + layers * (segments + 1) + x)
      ((layers + 1) * (segments + 1) + layers * (segments + 1) + x + 1)

/-- Bottom-floor fans (lines 202-219): an outer fan from the apex pushed at
index `2 * (layers+1) * (segments+1)` and an inner fan from the apex pushed
right after it. -/
def floorIndices (layers segments : ℕ) : List ℕ :=
  ((List.range segments).flatMap fun x =>
    [2 * (layers + 1) * (segments + 1), x + 1, x]) ++
  ((List.range segments).flatMap fun x =>
    [2 * (layers + 1) * (segments + 1) + 1,
     (layers + 1) * (segments + 1) + x, (layers + 1) * (segments + 1) + x + 1])

/-- The mesh builder `generateVesselMesh` (lines 87-225).  Vase mode when
`wallThickness ≤ 0`, otherwise outer shell + inner shell + rim + floor, with
the two floor apexes `(0, 0, 0)` and `(0, wallThickness, 0)` pushed last. -/
def generateVesselMesh (params : VesselParams) (tex : Option TextureData) : Mesh :=
  if params.wallThickness ≤ 0 then
    { vertices := (outerGrid params tex).flatMap coords
      indices := vaseIndices params.layers params.segments }
  else
    { vertices := ((outerGrid params tex).flatMap coords ++
                   (innerGrid params tex).flatMap coords) ++
                  [0, 0, 0, 0, params.wallThickness, 0]
      indices := outerShellIndices params.layers params.segments ++
                 innerShellIndices params.layers params.segments ++
                 rimIndices params.layers params.segments ++
                 floorIndices params.layers params.segments }

/-- Vertex count as the OBJ/PLY exporters derive it: `vertices.length / 3`. -/
def vertexCount (params : VesselParams) (tex : Option TextureData) : ℕ :=
  (generateVesselMesh params tex).vertices.length / 3

/-- Triangle count: `indices.length / 3`. -/
def triangleCount (params : VesselParams) (tex : Option TextureData) : ℕ :=
  (generateVesselMesh params tex).indices.length / 3

/-- The 1-based face indices written by `exportOBJ` (src/App.tsx concatenated
exporters, lines 180-183: `f ${indices[i]+1} ...`). -/
def objFaceIndices (params : VesselParams) (tex : Option TextureData) : List ℕ :=
  (generateVesselMesh params tex).indices.map (· + 1)

/-! ### Print statistics (src/unnamed/part_000, lines 227-289) -/

/-- `layerHeight = height / layers` (line 233; also line 288 of the G-code
exporter). -/
def layerHeight (params : VesselParams) : ℝ := params.height / params.layers

/-- `filamentArea = PI * (filamentDiameter / 2)^2` (line 274; also line 295
of the G-code exporter). -/
def filamentArea (params : VesselParams) : ℝ :=
  Real.pi * (params.filamentDiameter / 2) ^ 2

/-- `sampleSteps = Math.min(segments, 20)` (line 237): the per-layer angular
resolution of the point-to-point estimation walk. -/
def sampleSteps (params : VesselParams) : ℕ := min params.segments 20

/-- The surface points visited by the point-to-point accumulation loop of
`calculatePrintStats` (lines 242-256), in visit order: layers `i = 0..layers`
outer, samples `j = 0..sampleSteps` inner. -/
def statsPathPoints (params : VesselParams) (tex : Option TextureData) : List SurfacePoint :=
  (List.range (params.layers + 1)).flatMap fun (i : ℕ) =>
    (List.range (sampleSteps params + 1)).map fun (j : ℕ) =>
      calculateVesselPoint params ((j : ℝ) / sampleSteps params) ((i : ℝ) / params.layers)
        0 0 1 tex

/-- 3D distance between two surface points, as accumulated at line 253. -/
def pointDist (a b : SurfacePoint) : ℝ :=
  Real.sqrt ((b.x - a.x) ^ 2 + (b.y - a.y) ^ 2 + (b.z - a.z) ^ 2)

/-- `totalDist` of `calculatePrintStats` (lines 232-256): point-to-point
accumulation starting from the point at `(0, 0)`.  The source computes this
value and never uses it in the returned record. -/
def statsTotalDist (params : VesselParams) (tex : Option TextureData) : ℝ :=
  ((statsPathPoints params tex).foldl
    (fun acc p => (acc.1 + pointDist acc.2 p, p))
    (0, calculateVesselPoint params 0 0 0 0 1 tex)).1

/-- `spiralDist` (lines 258-268): per layer, the radius is sampled at the 4
angular points `u = k/4`, averaged, and `2π · avgR` is accumulated. -/
def spiralDist (params : VesselParams) (tex : Option TextureData) : ℝ :=
  (List.range params.layers).foldl
    (fun (acc : ℝ) (i : ℕ) =>
      acc + 2 * Real.pi *
        (((List.range 4).foldl
          (fun (a : ℝ) (k : ℕ) =>
            a + (calculateVesselPoint params ((k : ℝ) / 4) ((i : ℝ) / params.layers)
                  0 0 1 tex).r) 0) / 4))
    0

/-- The statistics estimator `calculatePrintStats` (lines 227-289). -/
def calculatePrintStats (params : VesselParams) (tex : Option TextureData) : PrintStats :=
  { estimatedTime := spiralDist params tex / params.printSpeed
    filamentLength :=
      (spiralDist params tex * (params.nozzleDiameter * layerHeight params) /
        filamentArea params) / 1000
    filamentWeight :=
      spiralDist params tex * (params.nozzleDiameter * layerHeight params) * 0.0017
    layerHeight := layerHeight params
    totalLayers := params.layers }

/-! ### G-code generation (src/App.tsx concatenated exporters, lines 284-353) -/

/-- One emitted `G1` move: machine coordinates and the cumulative extrusion
value carried on the command. -/
structure GStep where
  x : ℝ
  y : ℝ
  z : ℝ
  e : ℝ

/-- `ePerMM = (nozzleDiameter * layerHeight) / filamentArea` (line 296). -/
def ePerMM (params : VesselParams) : ℝ :=
  params.nozzleDiameter * layerHeight params / filamentArea params

/-- The start point of the toolpath, `calculateVesselPoint(params, 0, 0)`
(line 301), used for the initial `G0` move. -/
def gcodeStart (params : VesselParams) (tex : Option TextureData) : SurfacePoint :=
  calculateVesselPoint params 0 0 0 0 1 tex

/-- The spiral loop of `exportGCODE` (lines 314-343), emitting the remaining
`steps` moves starting at step number `i`, carrying the previous machine
position and the cumulative extrusion.  At step `i`: `v = i / totalSteps`,
`u = i / segments`, machine axes `(X, Y, Z) = (p.x, p.z, p.y)`, and
`E += dist · ePerMM`. -/
def gcodeFrom (params : VesselParams) (tex : Option TextureData) :
    ℕ → ℕ → ℝ → ℝ → ℝ → ℝ → List GStep
  | _, 0, _, _, _, _ => []
  | i, steps + 1, prevX, prevY, prevZ, currentE =>
    let v := (i : ℝ) / (params.layers * params.segments : ℕ)
    let u := (i : ℝ) / params.segments
    let p := calculateVesselPoint params u v 0 0 1 tex
    let dist := Real.sqrt ((p.x - prevX) ^ 2 + (p.z - prevY) ^ 2 + (p.y - prevZ) ^ 2)
    let e := currentE + dist * ePerMM params
    ⟨p.x, p.z, p.y, e⟩ :: gcodeFrom params tex (i + 1) steps p.x p.z p.y e

/-- The full emitted `G1` step sequence of `exportGCODE`: steps
`i = 1 .. layers·segments`, starting from the position of the initial `G0`
move at height `layerHeight` with `currentE = 0`. -/
def gcodeSteps (params : VesselParams) (tex : Option TextureData) : List GStep :=
  gcodeFrom params tex 1 (params.layers * params.segments)
    (gcodeStart params tex).x (gcodeStart params tex).z (layerHeight params) 0

/-! ### STL facet normals (src/App.tsx concatenated exporters, lines 188-221) -/

/-- A plain 3-vector, for the triangle corners read back from the vertex
buffer by `exportSTL`. -/
@[ext]
structure Vec3 where
  x : ℝ
  y : ℝ
  z : ℝ

/-- The raw cross product of the two edge vectors `v2 - v1` and `v3 - v1`
(lines 202-206). -/
def crossVec (v1 v2 v3 : Vec3) : Vec3 :=
  ⟨(v2.y - v1.y) * (v3.z - v1.z) - (v2.z - v1.z) * (v3.y - v1.y),
   (v2.z - v1.z) * (v3.x - v1.x) - (v2.x - v1.x) * (v3.z - v1.z),
   (v2.x - v1.x) * (v3.y - v1.y) - (v2.y - v1.y) * (v3.x - v1.x)⟩

/-- The normalisation divisor `Math.sqrt(nx*nx + ny*ny + nz*nz) || 1`
(line 208): for finite inputs the JS `|| 1` fallback fires exactly when the
square root is `0`. -/
def stlLen (v1 v2 v3 : Vec3) : ℝ :=
  let n := crossVec v1 v2 v3
  let len := Real.sqrt (n.x * n.x + n.y * n.y + n.z * n.z)
  if len = 0 then 1 else len

/-- The facet normal emitted by `exportSTL` for a triangle (line 210):
the cross product divided componentwise by `stlLen`. -/
def stlNormal (v1 v2 v3 : Vec3) : Vec3 :=
  let n := crossVec v1 v2 v3
  ⟨n.x / stlLen v1 v2 v3, n.y / stlLen v1 v2 v3, n.z / stlLen v1 v2 v3⟩

/-! ### Concrete parameter sets used by witnesses and examples -/

/-- The UI default parameters with `layers = 0`: the malformed configuration
of the fail-fast claim (vase branch, `wallThickness = 0`). -/
def paramsZeroLayers : VesselParams :=
  { height := 150, baseRadius := 40, noiseScale := 10, noiseFrequency := 5,
    layers := 0, twist := 1, segments := 4, wallThickness := 0,
    nozzleDiameter := 1.2, filamentDiameter := 1.75, printSpeed := 1200,
    textureInfluence := 10 }

/-- The perfect-cylinder example configuration: `height = 150`,
`baseRadius = 40`, `noiseScale = 0`, `twist = 0`, `layers = 10`,
`segments = 4`, `wallThickness = 0`, no texture. -/
def paramsCylinder : VesselParams :=
  { height := 150, baseRadius := 40, noiseScale := 0, noiseFrequency := 5,
    layers := 10, twist := 0, segments := 4, wallThickness := 0,
    nozzleDiameter := 1.2, filamentDiameter := 1.75, printSpeed := 1200,
    textureInfluence := 10 }

/-- A small valid vase-mode configuration (`layers = 1`, `segments = 3`,
`wallThickness = 0`). -/
def paramsVaseSmall : VesselParams :=
  { height := 150, baseRadius := 40, noiseScale := 10, noiseFrequency := 5,
    layers := 1, twist := 1, segments := 3, wallThickness := 0,
    nozzleDiameter := 1.2, filamentDiameter := 1.75, printSpeed := 1200,
    textureInfluence := 10 }

/-- The solid-mode example configuration of the floor-apex claim:
`wallThickness = 2`, `height = 100`. -/
def paramsSolid : VesselParams :=
  { height := 100, baseRadius := 40, noiseScale := 10, noiseFrequency := 5,
    layers := 2, twist := 1, segments := 3, wallThickness := 2,
    nozzleDiameter := 1.2, filamentDiameter := 1.75, printSpeed := 1200,
    textureInfluence := 10 }

/-- A well-formed 2×2 texture grid. -/
def texSmall : TextureData := { data := [7, 7, 7, 7], width := 2, height := 2 }

/-! ### Helper lemmas -/

/-- The radius clamp `if (r < 0.1) r = 0.1` never yields a value below the
floor. -/
lemma clamp_ge (a : ℝ) : (0.1 : ℝ) ≤ if a < 0.1 then 0.1 else a := by
  split_ifs with h
  · exact le_refl _
  · exact le_of_not_lt h

/-- The final clamp of the surface evaluator: the returned radius is the
clamped value, hence at least `0.1`. -/
lemma calculateVesselPoint_r_ge (params : VesselParams) (u v ro ho hs : ℝ)
    (tex : Option TextureData) :
    (0.1 : ℝ) ≤ (calculateVesselPoint params u v ro ho hs tex).r := by
  simp only [calculateVesselPoint]
  exact clamp_ge _

/-- Flattening surface points to coordinates triples the length. -/
lemma length_flatMap_coords (l : List SurfacePoint) :
    (l.flatMap coords).length = 3 * l.length := by
  induction l with
  | nil => simp
  | cons p t ih => simp [coords, ih]; ring

/-- A full sampling grid has `(layers+1) · (segments+1)` points. -/
lemma gridPoints_length (params : VesselParams) (ro ho hs : ℝ) (tex : Option TextureData) :
    (gridPoints params ro ho hs tex).length =
      (params.layers + 1) * (params.segments + 1) := by
  simp [gridPoints, List.length_flatMap, Function.comp_def, List.map_const',
    List.sum_replicate, smul_eq_mul, mul_comm]

/-- Vase-mode stitching emits `layers · segments · 6` indices (two triangles
per cell). -/
lemma vaseIndices_length (L S : ℕ) : (vaseIndices L S).length = L * S * 6 := by
  simp [vaseIndices, List.length_flatMap, Function.comp_def, List.map_const',
    List.sum_replicate, smul_eq_mul]
  ring

/-- The statistics walk visits `(layers+1) · (sampleSteps+1)` points. -/
lemma statsPathPoints_length (params : VesselParams) (tex : Option TextureData) :
    (statsPathPoints params tex).length =
      (params.layers + 1) * (sampleSteps params + 1) := by
  simp [statsPathPoints, List.length_flatMap, Function.comp_def, List.map_const',
    List.sum_replicate, smul_eq_mul, mul_comm]

/-- The height coordinate produced by the surface evaluator is
`v · height · heightScale + heightOffset`. -/
lemma calculateVesselPoint_y (params : VesselParams) (u v ro ho hs : ℝ)
    (tex : Option TextureData) :
    (calculateVesselPoint params u v ro ho hs tex).y = v * params.height * hs + ho := rfl

/-- Every grid cell produces a member of the sampling grid. -/
lemma mem_gridPoints (params : VesselParams) (ro ho hs : ℝ) (tex : Option TextureData)
    {y x : ℕ} (hy : y < params.layers + 1) (hx : x < params.segments + 1) :
    calculateVesselPoint params ((x : ℝ) / params.segments) ((y : ℝ) / params.layers)
      ro ho hs tex ∈ gridPoints params ro ho hs tex := by
  simp only [gridPoints, List.mem_flatMap, List.mem_map, List.mem_range]
  exact ⟨y, hy, x, hx, rfl⟩

/-- Every member of the sampling grid is a surface evaluation at normalized
cell coordinates. -/
lemma gridPoints_mem_form (params : VesselParams) (ro ho hs : ℝ) (tex : Option TextureData)
    {q : SurfacePoint} (hq : q ∈ gridPoints params ro ho hs tex) :
    ∃ y ≤ params.layers, ∃ x ≤ params.segments,
      q = calculateVesselPoint params ((x : ℝ) / params.segments)
        ((y : ℝ) / params.layers) ro ho hs tex := by
  unfold gridPoints at hq
  rw [List.mem_flatMap] at hq
  obtain ⟨y, hy, hq⟩ := hq
  rw [List.mem_map] at hq
  obtain ⟨x, hx, hxe⟩ := hq
  rw [List.mem_range] at hy hx
  exact ⟨y, by omega, x, by omega, hxe.symm⟩

/-- JavaScript `%` with nonnegative dividend and positive divisor lands in
`[0, b)`. -/
lemma jsMod_nonneg_lt (a b : ℝ) (ha : 0 ≤ a) (hb : 0 < b) :
    0 ≤ jsMod a b ∧ jsMod a b < b := by
  have hdiv : 0 ≤ a / b := div_nonneg ha hb.le
  have htr : jsTrunc (a / b) = ⌊a / b⌋ := if_pos hdiv
  have hfr : jsMod a b = b * Int.fract (a / b) := by
    rw [jsMod, htr, Int.fract]
    field_simp
  constructor
  · rw [hfr]
    exact mul_nonneg hb.le (Int.fract_nonneg _)
  · rw [hfr]
    calc b * Int.fract (a / b) < b * 1 :=
        mul_lt_mul_of_pos_left (Int.fract_lt_one _) hb
      _ = b := mul_one b

/-- The horizontal texel column `x1` lies in `[0, width)` for `u ≥ 0`. -/
lemma x1_bounds (t : TextureData) (u : ℝ) (hw : 1 ≤ t.width) (hu : 0 ≤ u) :
    0 ≤ x1 t u ∧ x1 t u < (t.width : ℤ) := by
  have hwpos : (0 : ℝ) < (t.width : ℝ) := by exact_mod_cast hw
  obtain ⟨h0, h1⟩ := jsMod_nonneg_lt (u * t.width) t.width
    (mul_nonneg hu hwpos.le) hwpos
  refine ⟨Int.floor_nonneg.mpr h0, ?_⟩
  rw [x1, Int.floor_lt]
  exact_mod_cast h1

/-- The vertical texel row `y1` lies in `[0, height)` for `v ≤ 1`. -/
lemma y1_bounds (t : TextureData) (v : ℝ) (hh : 1 ≤ t.height) (hv1 : v ≤ 1) :
    0 ≤ y1 t v ∧ y1 t v < (t.height : ℤ) := by
  have hhpos : (0 : ℝ) < (t.height : ℝ) := by exact_mod_cast hh
  obtain ⟨h0, h1⟩ := jsMod_nonneg_lt ((1 - v) * t.height) t.height
    (mul_nonneg (by linarith) hhpos.le) hhpos
  refine ⟨Int.floor_nonneg.mpr h0, ?_⟩
  rw [y1, Int.floor_lt]
  exact_mod_cast h1

/-- The wrapped neighbour column `x2` lies in `[0, width)`. -/
lemma x2_bounds (t : TextureData) (u : ℝ) (hw : 1 ≤ t.width) (hu : 0 ≤ u) :
    0 ≤ x2 t u ∧ x2 t u < (t.width : ℤ) := by
  have h0 : 0 ≤ x1 t u + 1 := by linarith [(x1_bounds t u hw hu).1]
  exact ⟨Int.tmod_nonneg _ h0, Int.tmod_lt_of_pos _ (by exact_mod_cast hw)⟩

/-- The clamped neighbour row `y2` lies in `[0, height)`. -/
lemma y2_bounds (t : TextureData) (v : ℝ) (hh : 1 ≤ t.height) (hv1 : v ≤ 1) :
    0 ≤ y2 t v ∧ y2 t v < (t.height : ℤ) := by
  obtain ⟨h0, h1⟩ := y1_bounds t v hh hv1
  rw [y2]
  split_ifs with hc
  · exact ⟨by linarith, hc⟩
  · exact ⟨h0, h1⟩

/-- A texel `(row, column)` address with both components in range addresses a
sample inside the `width × height` grid. -/
lemma texIndex_bounds {w h yy xx : ℤ} (hw : 0 < w) (hy0 : 0 ≤ yy) (hyh : yy < h)
    (hx0 : 0 ≤ xx) (hxw : xx < w) :
    0 ≤ yy * w + xx ∧ yy * w + xx < w * h := by
  refine ⟨add_nonneg (mul_nonneg hy0 hw.le) hx0, ?_⟩
  calc yy * w + xx < yy * w + w := by linarith
    _ = (yy + 1) * w := by ring
    _ ≤ h * w := mul_le_mul_of_nonneg_right (by linarith) hw.le
    _ = w * h := mul_comm _ _

/-- Grid-cell index bound: row `y ≤ L`, column `x ≤ S` addresses a vertex
strictly inside a `(L+1) × (S+1)` grid. -/
lemma cell_lt {y x L S : ℕ} (hy : y ≤ L) (hx : x ≤ S) :
    y * (S + 1) + x < (L + 1) * (S + 1) := by
  calc y * (S + 1) + x < y * (S + 1) + (S + 1) := by omega
    _ = (y + 1) * (S + 1) := by ring
    _ ≤ (L + 1) * (S + 1) := Nat.mul_le_mul_right _ (by omega)

/-- Every vase-mode index addresses a vertex of the single grid. -/
lemma vaseIndices_lt (L S : ℕ) :
    ∀ i ∈ vaseIndices L S, i < (L + 1) * (S + 1) := by
  intro i hi
  simp only [vaseIndices, List.mem_flatMap, List.mem_range, List.mem_cons,
    List.not_mem_nil, or_false] at hi
  obtain ⟨y, hy, x, hx, hc⟩ := hi
  rcases hc with h | h | h | h | h | h <;> subst h
  · exact cell_lt (by omega) (by omega)
  · exact cell_lt (by omega) (by omega)
  · linarith [cell_lt (show y ≤ L by omega) (show x + 1 ≤ S by omega)]
  · linarith [cell_lt (show y ≤ L by omega) (show x + 1 ≤ S by omega)]
  · exact cell_lt (by omega) (by omega)
  · linarith [cell_lt (show y + 1 ≤ L by omega) (show x + 1 ≤ S by omega)]

/-- Outer-shell indices address the first grid. -/
lemma outerShellIndices_lt (L S : ℕ) :
    ∀ i ∈ outerShellIndices L S, i < (L + 1) * (S + 1) := by
  intro i hi
  simp only [outerShellIndices, addQuad, List.mem_flatMap, List.mem_range,
    List.mem_cons, List.not_mem_nil, or_false] at hi
  obtain ⟨y, hy, x, hx, hc⟩ := hi
  rcases hc with h | h | h | h | h | h <;> subst h
  · exact cell_lt (by omega) (by omega)
  · exact cell_lt (by omega) (by omega)
  · linarith [cell_lt (show y ≤ L by omega) (show x + 1 ≤ S by omega)]
  · linarith [cell_lt (show y ≤ L by omega) (show x + 1 ≤ S by omega)]
  · exact cell_lt (by omega) (by omega)
  · linarith [cell_lt (show y + 1 ≤ L by omega) (show x + 1 ≤ S by omega)]

/-- Inner-shell indices address the second grid. -/
lemma innerShellIndices_lt (L S : ℕ) :
    ∀ i ∈ innerShellIndices L S, i < 2 * ((L + 1) * (S + 1)) := by
  intro i hi
  simp only [innerShellIndices, addQuad, List.mem_flatMap, List.mem_range,
    List.mem_cons, List.not_mem_nil, or_false] at hi
  obtain ⟨y, hy, x, hx, hc⟩ := hi
  rcases hc with h | h | h | h | h | h <;> subst h
  · linarith [cell_lt (show y ≤ L by omega) (show x + 1 ≤ S by omega)]
  · linarith [cell_lt (show y + 1 ≤ L by omega) (show x + 1 ≤ S by omega)]
  · linarith [cell_lt (show y ≤ L by omega) (show x ≤ S by omega)]
  · linarith [cell_lt (show y ≤ L by omega) (show x ≤ S by omega)]
  · linarith [cell_lt (show y + 1 ≤ L by omega) (show x + 1 ≤ S by omega)]
  · linarith [cell_lt (show y + 1 ≤ L by omega) (show x ≤ S by omega)]

/-- Rim indices address the top rows of the two grids. -/
lemma rimIndices_lt (L S : ℕ) :
    ∀ i ∈ rimIndices L S, i < 2 * ((L + 1) * (S + 1)) := by
  intro i hi
  simp only [rimIndices, addQuad, List.mem_flatMap, List.mem_range,
    List.mem_cons, List.not_mem_nil, or_false] at hi
  obtain ⟨x, hx, hc⟩ := hi
  rcases hc with h | h | h | h | h | h <;> subst h <;>
    linarith [cell_lt (show L ≤ L from le_refl L) (show x ≤ S by omega),
      cell_lt (show L ≤ L from le_refl L) (show x + 1 ≤ S by omega),
      Nat.zero_le ((L + 1) * (S + 1))]

/-- Floor-fan indices address the bottom rows of the two grids and the two
apex vertices. -/
lemma floorIndices_lt (L S : ℕ) :
    ∀ i ∈ floorIndices L S, i < 2 * ((L + 1) * (S + 1)) + 2 := by
  intro i hi
  have hS1 : S < (L + 1) * (S + 1) :=
    lt_of_lt_of_le (by omega) (Nat.le_mul_of_pos_left _ (by omega))
  have h2 : 2 * (L + 1) * (S + 1) = 2 * ((L + 1) * (S + 1)) := by ring
  simp only [floorIndices, List.mem_append, List.mem_flatMap, List.mem_range,
    List.mem_cons, List.not_mem_nil, or_false] at hi
  rcases hi with ⟨x, hx, hc⟩ | ⟨x, hx, hc⟩
  · rcases hc with h | h | h <;> subst h <;> linarith
  · rcases hc with h | h | h <;> subst h <;> linarith

/-- Vase-mode vertex-buffer length. -/
lemma vertices_length_vase (params : VesselParams) (tex : Option TextureData)
    (hbr : params.wallThickness ≤ 0) :
    (generateVesselMesh params tex).vertices.length =
      3 * ((params.layers + 1) * (params.segments + 1)) := by
  simp only [generateVesselMesh, if_pos hbr]
  rw [length_flatMap_coords, outerGrid, gridPoints_length]

/-- Solid-mode vertex-buffer length. -/
lemma vertices_length_solid (params : VesselParams) (tex : Option TextureData)
    (hbr : ¬ params.wallThickness ≤ 0) :
    (generateVesselMesh params tex).vertices.length =
      6 * ((params.layers + 1) * (params.segments + 1)) + 6 := by
  simp only [generateVesselMesh, if_neg hbr]
  rw [List.length_append, List.length_append, length_flatMap_coords,
    length_flatMap_coords, outerGrid, innerGrid, gridPoints_length, gridPoints_length]
  simp only [List.length_cons, List.length_nil]
  ring

/-- Folding `acc + f i` over a list is the initial value plus the sum of the
mapped list (the loop-accumulator shape of the source). -/
lemma foldl_add_eq_sum (f : ℕ → ℝ) : ∀ (l : List ℕ) (c : ℝ),
    l.foldl (fun a i => a + f i) c = c + (l.map f).sum := by
  intro l
  induction l with
  | nil => intro c; simp
  | cons j t ih =>
    intro c
    simp only [List.foldl_cons, List.map_cons, List.sum_cons, ih]
    ring

/-- Summing a function over `List.range` is the `Finset.range` sum. -/
lemma sum_map_range_eq (f : ℕ → ℝ) : ∀ n, ((List.range n).map f).sum =
    ∑ i ∈ Finset.range n, f i := by
  intro n
  induction n with
  | zero => simp
  | succ k ih => simp [List.range_succ, Finset.sum_range_succ, ih]

/-- The accumulated `spiralDist` loop equals the closed-form double sum. -/
lemma spiralDist_eq (params : VesselParams) (tex : Option TextureData) :
    spiralDist params tex = ∑ i ∈ Finset.range params.layers,
      2 * Real.pi * ((∑ k ∈ Finset.range 4,
        (calculateVesselPoint params ((k : ℝ) / 4) ((i : ℝ) / params.layers)
          0 0 1 tex).r) / 4) := by
  unfold spiralDist
  rw [foldl_add_eq_sum, zero_add, sum_map_range_eq]
  refine Finset.sum_congr rfl fun i _ => ?_
  rw [foldl_add_eq_sum, zero_add, sum_map_range_eq]

/-! ### Claims -/

/-- Claim C1: the spec requires a configuration with `layers ≤ 0` or
`segments ≤ 0` to fail fast with a configuration error before any sampling
loop runs.  The source has no such validation anywhere: at `layers = 0` the
mesh builder still evaluates a full row of surface points (15 vertex
coordinates, from 5 evaluated points), the statistics estimator still walks
5 sample points, and the G-code generator still evaluates its start point and
returns normally (with an empty spiral, `totalSteps = 0·segments = 0`) — no
error is ever produced.  (The `v = 0/0` of the degenerate loops is `0` in
this real-number model where JavaScript yields `NaN`; the claim concerns the
absence of an error path and the execution of the sampling loops, which do
not depend on that value.) -/
theorem no_failfast_on_zero_layers :
    (generateVesselMesh paramsZeroLayers none).vertices.length = 15 ∧
    (statsPathPoints paramsZeroLayers none).length = 5 ∧
    (calculatePrintStats paramsZeroLayers none).totalLayers = 0 ∧
    gcodeSteps paramsZeroLayers none = [] ∧
    (0.1 : ℝ) ≤ (gcodeStart paramsZeroLayers none).r := by
  refine ⟨?_, ?_, rfl, ?_, calculateVesselPoint_r_ge ..⟩
  · have hbr : paramsZeroLayers.wallThickness ≤ 0 := by norm_num [paramsZeroLayers]
    simp only [generateVesselMesh, if_pos hbr]
    rw [length_flatMap_coords, outerGrid, gridPoints_length]
    norm_num [paramsZeroLayers]
  · simp [statsPathPoints_length, sampleSteps, paramsZeroLayers]
  · simp [gcodeSteps, paramsZeroLayers, gcodeFrom]

/-- Claim C2: for every configuration, every `u ≥ 0`, every `v ∈ [0,1]`,
arbitrary `radiusOffset`, `heightOffset`, `heightScale` and any (or no)
texture, the `r` field returned by `calculateVesselPoint` is at least `0.1`:
the final clamp (line 79) guarantees it regardless of noise or texture
displacement. -/
theorem radius_always_clamped (params : VesselParams)
    (u v radiusOffset heightOffset heightScale : ℝ) (tex : Option TextureData)
    (hu : 0 ≤ u) (hv0 : 0 ≤ v) (hv1 : v ≤ 1) :
    (0.1 : ℝ) ≤
      (calculateVesselPoint params u v radiusOffset heightOffset heightScale tex).r :=
  calculateVesselPoint_r_ge params u v radiusOffset heightOffset heightScale tex

/-- Witness for the radius clamp claim at a concrete input. -/
theorem radius_always_clamped_witness :
    (0 : ℝ) ≤ 0 ∧ (0 : ℝ) ≤ 1 / 2 ∧ (1 / 2 : ℝ) ≤ 1 ∧
    (0.1 : ℝ) ≤ (calculateVesselPoint paramsCylinder 0 (1 / 2) 0 0 1 (some texSmall)).r :=
  ⟨le_refl 0, by norm_num, by norm_num,
    radius_always_clamped paramsCylinder 0 (1 / 2) 0 0 1 (some texSmall)
      (le_refl 0) (by norm_num) (by norm_num)⟩

/-- Claim C5: for a valid solid configuration (`0 < wallThickness ≤ height`,
`0 < height`, `layers ≥ 1`; a wall thicker than the vessel is not a valid
solid vessel, cf. spec §4.2 "reaches the same top as the outer shell"), the
inner shell is generated with `radiusOffset = -wallThickness`,
`heightOffset = +wallThickness`, `heightScale = (height-wallThickness)/height`
(this is `innerGrid` by definition), and the maximum `y` coordinate of the
inner-shell grid equals the maximum `y` coordinate of the outer-shell grid —
both are exactly `height`, so the rim closes with no gap. -/
theorem rim_closes (params : VesselParams) (tex : Option TextureData)
    (hh : 0 < params.height) (hw : 0 < params.wallThickness)
    (hwh : params.wallThickness ≤ params.height) (hL : 1 ≤ params.layers) :
    ((innerGrid params tex).map SurfacePoint.y).maximum =
      ((outerGrid params tex).map SurfacePoint.y).maximum ∧
    ((outerGrid params tex).map SurfacePoint.y).maximum = (params.height : WithBot ℝ) := by
  have hLne : (params.layers : ℝ) ≠ 0 := Nat.cast_ne_zero.mpr (by omega)
  have hLpos : (0 : ℝ) < params.layers := by
    have : (0 : ℕ) < params.layers := by omega
    exact_mod_cast this
  have hhne : params.height ≠ 0 := ne_of_gt hh
  have houter : ((outerGrid params tex).map SurfacePoint.y).maximum =
      (params.height : WithBot ℝ) := by
    rw [List.maximum_eq_coe_iff]
    constructor
    · refine List.mem_map.2
        ⟨calculateVesselPoint params (((0 : ℕ) : ℝ) / params.segments)
          ((params.layers : ℝ) / params.layers) 0 0 1 tex,
         mem_gridPoints params 0 0 1 tex (by omega) (by omega), ?_⟩
      rw [calculateVesselPoint_y, div_self hLne]
      ring
    · intro b hb
      obtain ⟨q, hq, rfl⟩ := List.mem_map.1 hb
      obtain ⟨y, hy, x, hx, rfl⟩ := gridPoints_mem_form params 0 0 1 tex hq
      rw [calculateVesselPoint_y]
      have hv1 : (y : ℝ) / params.layers ≤ 1 := by
        rw [div_le_one hLpos]
        exact_mod_cast hy
      have := mul_le_of_le_one_left hh.le hv1
      linarith
  have hinner : ((innerGrid params tex).map SurfacePoint.y).maximum =
      (params.height : WithBot ℝ) := by
    rw [List.maximum_eq_coe_iff]
    have hsimp : ∀ v : ℝ,
        v * params.height * ((params.height - params.wallThickness) / params.height) =
          v * (params.height - params.wallThickness) := by
      intro v
      field_simp
      ring
    constructor
    · refine List.mem_map.2
        ⟨calculateVesselPoint params (((0 : ℕ) : ℝ) / params.segments)
          ((params.layers : ℝ) / params.layers) (-params.wallThickness)
          params.wallThickness ((params.height - params.wallThickness) / params.height) tex,
         mem_gridPoints params (-params.wallThickness) params.wallThickness
           ((params.height - params.wallThickness) / params.height) tex
           (by omega) (by omega), ?_⟩
      rw [calculateVesselPoint_y, div_self hLne, hsimp]
      ring
    · intro b hb
      obtain ⟨q, hq, rfl⟩ := List.mem_map.1 hb
      obtain ⟨y, hy, x, hx, rfl⟩ := gridPoints_mem_form params (-params.wallThickness)
        params.wallThickness ((params.height - params.wallThickness) / params.height) tex hq
      rw [calculateVesselPoint_y, hsimp]
      have hv1 : (y : ℝ) / params.layers ≤ 1 := by
        rw [div_le_one hLpos]
        exact_mod_cast hy
      have := mul_le_of_le_one_left (by linarith :
        (0 : ℝ) ≤ params.height - params.wallThickness) hv1
      linarith
  exact ⟨hinner.trans houter.symm, houter⟩

/-- Witness for the rim-closure claim at the concrete solid configuration
(`height = 100`, `wallThickness = 2`, `layers = 2`). -/
theorem rim_closes_witness :
    (0 : ℝ) < paramsSolid.height ∧ (0 : ℝ) < paramsSolid.wallThickness ∧
    paramsSolid.wallThickness ≤ paramsSolid.height ∧ 1 ≤ paramsSolid.layers ∧
    ((innerGrid paramsSolid none).map SurfacePoint.y).maximum =
      ((outerGrid paramsSolid none).map SurfacePoint.y).maximum :=
  ⟨by norm_num [paramsSolid], by norm_num [paramsSolid], by norm_num [paramsSolid],
    by norm_num [paramsSolid],
    (rim_closes paramsSolid none (by norm_num [paramsSolid]) (by norm_num [paramsSolid])
      (by norm_num [paramsSolid]) (by norm_num [paramsSolid])).1⟩

/-- Claim C3: for every valid configuration (`layers ≥ 1`, `segments ≥ 3`)
and any (or no) texture — in both vase mode and solid mode (rim and
floor-fan triangles included) — every triangle index of the generated mesh
is strictly less than the vertex count, and consequently every 1-based face
index written by `exportOBJ` lies in `[1, vertexCount]`. -/
theorem indices_in_range (params : VesselParams) (tex : Option TextureData)
    (hL : 1 ≤ params.layers) (hS : 3 ≤ params.segments) :
    (∀ i ∈ (generateVesselMesh params tex).indices, i < vertexCount params tex) ∧
    (∀ j ∈ objFaceIndices params tex, 1 ≤ j ∧ j ≤ vertexCount params tex) := by
  have hmain : ∀ i ∈ (generateVesselMesh params tex).indices,
      i < vertexCount params tex := by
    by_cases hbr : params.wallThickness ≤ 0
    · have hvc : vertexCount params tex =
          (params.layers + 1) * (params.segments + 1) := by
        rw [vertexCount, vertices_length_vase params tex hbr,
          Nat.mul_div_cancel_left _ (by norm_num)]
      have hidx : (generateVesselMesh params tex).indices =
          vaseIndices params.layers params.segments := by
        simp only [generateVesselMesh, if_pos hbr]
      rw [hvc, hidx]
      exact vaseIndices_lt _ _
    · have hvc : vertexCount params tex =
          2 * ((params.layers + 1) * (params.segments + 1)) + 2 := by
        rw [vertexCount, vertices_length_solid params tex hbr,
          show 6 * ((params.layers + 1) * (params.segments + 1)) + 6 =
            3 * (2 * ((params.layers + 1) * (params.segments + 1)) + 2) by ring,
          Nat.mul_div_cancel_left _ (by norm_num)]
      have hidx : (generateVesselMesh params tex).indices =
          outerShellIndices params.layers params.segments ++
          innerShellIndices params.layers params.segments ++
          rimIndices params.layers params.segments ++
          floorIndices params.layers params.segments := by
        simp only [generateVesselMesh, if_neg hbr]
      rw [hvc, hidx]
      intro i hi
      rw [List.mem_append, List.mem_append, List.mem_append] at hi
      have hN0 : 0 ≤ (params.layers + 1) * (params.segments + 1) := Nat.zero_le _
      rcases hi with ((ho | hin) | hr) | hf
      · linarith [outerShellIndices_lt params.layers params.segments i ho]
      · linarith [innerShellIndices_lt params.layers params.segments i hin]
      · linarith [rimIndices_lt params.layers params.segments i hr]
      · exact floorIndices_lt params.layers params.segments i hf
  refine ⟨hmain, fun j hj => ?_⟩
  obtain ⟨i, hi, rfl⟩ := List.mem_map.1 hj
  exact ⟨Nat.succ_le_succ (Nat.zero_le _), hmain i hi⟩

/-- Witness for the index-bound claim: at the small solid configuration, the
concrete index `0` is a mesh index below the vertex count, and the concrete
OBJ face index `1` lies in the valid 1-based range. -/
theorem indices_in_range_witness :
    1 ≤ paramsSolid.layers ∧ 3 ≤ paramsSolid.segments ∧
    0 ∈ (generateVesselMesh paramsSolid none).indices ∧
    0 < vertexCount paramsSolid none ∧
    1 ∈ objFaceIndices paramsSolid none ∧
    1 ≤ vertexCount paramsSolid none := by
  have hbr : ¬ paramsSolid.wallThickness ≤ 0 := by norm_num [paramsSolid]
  have hidx : (generateVesselMesh paramsSolid none).indices =
      outerShellIndices paramsSolid.layers paramsSolid.segments ++
      innerShellIndices paramsSolid.layers paramsSolid.segments ++
      rimIndices paramsSolid.layers paramsSolid.segments ++
      floorIndices paramsSolid.layers paramsSolid.segments := by
    simp only [generateVesselMesh, if_neg hbr]
  have hm : 0 ∈ (generateVesselMesh paramsSolid none).indices := by
    rw [hidx]
    refine List.mem_append_left _ (List.mem_append_left _ (List.mem_append_left _ ?_))
    show 0 ∈ outerShellIndices paramsSolid.layers paramsSolid.segments
    decide
  have hm1 : 1 ∈ objFaceIndices paramsSolid none := by
    rw [objFaceIndices]
    exact List.mem_map.2 ⟨0, hm, rfl⟩
  refine ⟨by norm_num [paramsSolid], by norm_num [paramsSolid], hm, ?_, hm1, ?_⟩
  · exact (indices_in_range paramsSolid none (by norm_num [paramsSolid])
      (by norm_num [paramsSolid])).1 0 hm
  · exact ((indices_in_range paramsSolid none (by norm_num [paramsSolid])
      (by norm_num [paramsSolid])).2 1 hm1).2

/-- Claim C9: the estimated print time returned by `calculatePrintStats` is
`spiralDistance / printSpeed`, where the spiral distance is the sum over the
`layers` rings of `2π` times the average of the radii sampled at the 4 evenly
spaced angular points `u = 0, 1/4, 1/2, 3/4`; and the separate point-to-point
accumulation samples each layer at `sampleSteps = min(segments, 20)`
subdivisions, so — since sample `j` and sample `j mod sampleSteps` lie at the
same angle (`u` has period 1 in angle) — it uses at most 20 distinct angular
sample positions per layer regardless of `segments`. -/
theorem stats_time_formula (params : VesselParams) (tex : Option TextureData) :
    (calculatePrintStats params tex).estimatedTime =
      (∑ i ∈ Finset.range params.layers, 2 * Real.pi *
        ((∑ k ∈ Finset.range 4,
          (calculateVesselPoint params ((k : ℝ) / 4) ((i : ℝ) / params.layers)
            0 0 1 tex).r) / 4)) / params.printSpeed ∧
    sampleSteps params = min params.segments 20 ∧
    ((Finset.range (sampleSteps params + 1)).image
      fun j => j % sampleSteps params).card ≤ 20 := by
  refine ⟨?_, rfl, ?_⟩
  · show spiralDist params tex / params.printSpeed = _
    rw [spiralDist_eq]
  · rcases Nat.eq_zero_or_pos (sampleSteps params) with h0 | hpos
    · rw [h0]
      decide
    · calc ((Finset.range (sampleSteps params + 1)).image
            fun j => j % sampleSteps params).card
          ≤ (Finset.range (sampleSteps params)).card := by
            refine Finset.card_le_card ?_
            intro m hm
            obtain ⟨j, hj, rfl⟩ := Finset.mem_image.1 hm
            exact Finset.mem_range.2 (Nat.mod_lt _ hpos)
        _ = sampleSteps params := Finset.card_range _
        _ ≤ 20 := min_le_right _ _

/-- Claim C8: for every solid configuration (`wallThickness > 0`), the
vertex buffer ends with exactly the two floor-apex vertices, pushed in this
order: the outer apex `(0, 0, 0)` and the inner apex
`(0, wallThickness, 0)` — no other vertices follow the two shell grids. -/
theorem floor_apexes (params : VesselParams) (tex : Option TextureData)
    (hw : 0 < params.wallThickness) :
    (generateVesselMesh params tex).vertices.length =
      6 * ((params.layers + 1) * (params.segments + 1)) + 6 ∧
    (generateVesselMesh params tex).vertices.drop
        (6 * ((params.layers + 1) * (params.segments + 1))) =
      [0, 0, 0, 0, params.wallThickness, 0] := by
  have hbr : ¬ params.wallThickness ≤ 0 := not_le.mpr hw
  simp only [generateVesselMesh, if_neg hbr]
  have hA : ((outerGrid params tex).flatMap coords ++
      (innerGrid params tex).flatMap coords).length =
      6 * ((params.layers + 1) * (params.segments + 1)) := by
    rw [List.length_append, length_flatMap_coords, length_flatMap_coords,
      outerGrid, innerGrid, gridPoints_length, gridPoints_length]
    ring
  constructor
  · rw [List.length_append, hA]
    simp
  · rw [← hA, List.drop_left]

/-- Witness for the floor-apex claim at the example configuration
`wallThickness = 2`, `height = 100` (`layers = 2`, `segments = 3`, so the
apexes start at flat offset `6·12 = 72`). -/
theorem floor_apexes_witness :
    (0 : ℝ) < paramsSolid.wallThickness ∧
    (generateVesselMesh paramsSolid none).vertices.drop 72 = [0, 0, 0, 0, 2, 0] := by
  refine ⟨by norm_num [paramsSolid], ?_⟩
  have h := (floor_apexes paramsSolid none (by norm_num [paramsSolid])).2
  norm_num [paramsSolid] at h
  exact h

/-- Claim C7: the concrete configuration `height = 150`, `baseRadius = 40`,
`noiseScale = 0`, `twist = 0`, `layers = 10`, `segments = 4`,
`wallThickness = 0`, no texture, yields a perfect cylinder: 165 vertex
coordinates (55 vertices), 240 triangle indices (80 triangles), and every
sampled grid point — the mesh vertices are exactly the flattened grid — lies
at distance exactly `40` from the `y` axis. -/
theorem cylinder_example :
    (generateVesselMesh paramsCylinder none).vertices.length = 165 ∧
    vertexCount paramsCylinder none = 55 ∧
    (generateVesselMesh paramsCylinder none).indices.length = 240 ∧
    triangleCount paramsCylinder none = 80 ∧
    ∀ q ∈ outerGrid paramsCylinder none, Real.sqrt (q.x ^ 2 + q.z ^ 2) = 40 := by
  have hbr : paramsCylinder.wallThickness ≤ 0 := by norm_num [paramsCylinder]
  have hvl : (generateVesselMesh paramsCylinder none).vertices.length = 165 := by
    simp only [generateVesselMesh, if_pos hbr]
    rw [length_flatMap_coords, outerGrid, gridPoints_length]
    norm_num [paramsCylinder]
  have hil : (generateVesselMesh paramsCylinder none).indices.length = 240 := by
    simp only [generateVesselMesh, if_pos hbr]
    rw [vaseIndices_length]
    norm_num [paramsCylinder]
  refine ⟨hvl, by rw [vertexCount, hvl], hil, by rw [triangleCount, hil], ?_⟩
  intro q hq
  rw [outerGrid] at hq
  obtain ⟨y, hy, x, hx, rfl⟩ := gridPoints_mem_form _ _ _ _ _ hq
  have hpt : calculateVesselPoint paramsCylinder ((x : ℝ) / paramsCylinder.segments)
      ((y : ℝ) / paramsCylinder.layers) 0 0 1 none =
      ⟨40 * Real.cos (((x : ℝ) / paramsCylinder.segments) * Real.pi * 2),
       ((y : ℝ) / paramsCylinder.layers) * paramsCylinder.height * 1 + 0,
       40 * Real.sin (((x : ℝ) / paramsCylinder.segments) * Real.pi * 2), 40⟩ := by
    simp only [calculateVesselPoint, paramsCylinder]
    norm_num
  rw [hpt]
  show Real.sqrt ((40 * Real.cos (((x : ℝ) / paramsCylinder.segments) * Real.pi * 2)) ^ 2 +
    (40 * Real.sin (((x : ℝ) / paramsCylinder.segments) * Real.pi * 2)) ^ 2) = 40
  have hsc : (40 * Real.cos (((x : ℝ) / paramsCylinder.segments) * Real.pi * 2)) ^ 2 +
      (40 * Real.sin (((x : ℝ) / paramsCylinder.segments) * Real.pi * 2)) ^ 2 = 1600 := by
    nlinarith [Real.sin_sq_add_cos_sq (((x : ℝ) / paramsCylinder.segments) * Real.pi * 2)]
  rw [hsc, show (1600 : ℝ) = 40 ^ 2 by norm_num,
    Real.sqrt_sq (by norm_num : (0 : ℝ) ≤ 40)]

/-- Witness for the cylinder example: the grid point at cell `(0, 0)` is a
member of the sampled grid and lies at distance `40` from the axis. -/
theorem cylinder_example_witness :
    calculateVesselPoint paramsCylinder (((0 : ℕ) : ℝ) / paramsCylinder.segments)
        (((0 : ℕ) : ℝ) / paramsCylinder.layers) 0 0 1 none ∈
      outerGrid paramsCylinder none ∧
    Real.sqrt ((calculateVesselPoint paramsCylinder
        (((0 : ℕ) : ℝ) / paramsCylinder.segments)
        (((0 : ℕ) : ℝ) / paramsCylinder.layers) 0 0 1 none).x ^ 2 +
      (calculateVesselPoint paramsCylinder (((0 : ℕ) : ℝ) / paramsCylinder.segments)
        (((0 : ℕ) : ℝ) / paramsCylinder.layers) 0 0 1 none).z ^ 2) = 40 := by
  have hm : calculateVesselPoint paramsCylinder (((0 : ℕ) : ℝ) / paramsCylinder.segments)
      (((0 : ℕ) : ℝ) / paramsCylinder.layers) 0 0 1 none ∈
      outerGrid paramsCylinder none := by
    rw [outerGrid]
    exact mem_gridPoints paramsCylinder 0 0 1 none (Nat.succ_pos _) (Nat.succ_pos _)
  exact ⟨hm, cylinder_example.2.2.2.2 _ hm⟩

/-- Claim C10: for every well-formed texture (`width ≥ 1`, `height ≥ 1`,
`data.length = width · height`) and every `u ≥ 0`, `v ∈ [0, 1]`, the four
luminance-array indices of the bilinear sampling (`i11`, `i21`, `i12`,
`i22`) lie in `[0, data.length)` — the horizontal neighbour wraps modulo
`width`, the vertical neighbour is clamped at the last row, so no
out-of-bounds read occurs. -/
theorem texture_indices_in_bounds (t : TextureData) (u v : ℝ)
    (hw : 1 ≤ t.width) (hh : 1 ≤ t.height)
    (hlen : t.data.length = t.width * t.height)
    (hu : 0 ≤ u) (hv0 : 0 ≤ v) (hv1 : v ≤ 1) :
    (0 ≤ i11 t u v ∧ i11 t u v < (t.data.length : ℤ)) ∧
    (0 ≤ i21 t u v ∧ i21 t u v < (t.data.length : ℤ)) ∧
    (0 ≤ i12 t u v ∧ i12 t u v < (t.data.length : ℤ)) ∧
    (0 ≤ i22 t u v ∧ i22 t u v < (t.data.length : ℤ)) := by
  have hwZ : (0 : ℤ) < (t.width : ℤ) := by exact_mod_cast hw
  obtain ⟨hx10, hx1w⟩ := x1_bounds t u hw hu
  obtain ⟨hx20, hx2w⟩ := x2_bounds t u hw hu
  obtain ⟨hy10, hy1h⟩ := y1_bounds t v hh hv1
  obtain ⟨hy20, hy2h⟩ := y2_bounds t v hh hv1
  have hcast : (t.data.length : ℤ) = (t.width : ℤ) * (t.height : ℤ) := by
    exact_mod_cast hlen
  rw [i11, i21, i12, i22, hcast]
  exact ⟨texIndex_bounds hwZ hy10 hy1h hx10 hx1w,
    texIndex_bounds hwZ hy10 hy1h hx20 hx2w,
    texIndex_bounds hwZ hy20 hy2h hx10 hx1w,
    texIndex_bounds hwZ hy20 hy2h hx20 hx2w⟩

/-- Witness for the texture-index claim on a concrete 2×2 texture at
`(u, v) = (0, 0)`. -/
theorem texture_indices_in_bounds_witness :
    1 ≤ texSmall.width ∧ 1 ≤ texSmall.height ∧
    texSmall.data.length = texSmall.width * texSmall.height ∧
    (0 : ℝ) ≤ 0 ∧ (0 : ℝ) ≤ 1 ∧
    (0 ≤ i11 texSmall 0 0 ∧ i11 texSmall 0 0 < (texSmall.data.length : ℤ)) ∧
    (0 ≤ i22 texSmall 0 0 ∧ i22 texSmall 0 0 < (texSmall.data.length : ℤ)) := by
  have h := texture_indices_in_bounds texSmall 0 0 (by norm_num [texSmall])
    (by norm_num [texSmall]) (by norm_num [texSmall]) le_rfl le_rfl zero_le_one
  exact ⟨by norm_num [texSmall], by norm_num [texSmall], by norm_num [texSmall],
    le_rfl, zero_le_one, h.1, h.2.2.2⟩

/-- Claim C4 (counterexample): the claim says a degenerate triangle falls
back to a default *unit* normal.  It does not: for the fully degenerate
triangle with all corners at the origin the cross product is zero, the
`|| 1` fallback only replaces the zero divisor by `1`, and the emitted
facet normal is the *zero* vector `(0, 0, 0)`, whose length is `0`, not
`1`. -/
theorem stl_degenerate_normal_not_unit :
    stlNormal ⟨0, 0, 0⟩ ⟨0, 0, 0⟩ ⟨0, 0, 0⟩ = ⟨0, 0, 0⟩ ∧
    Real.sqrt ((stlNormal ⟨0, 0, 0⟩ ⟨0, 0, 0⟩ ⟨0, 0, 0⟩).x ^ 2 +
        (stlNormal ⟨0, 0, 0⟩ ⟨0, 0, 0⟩ ⟨0, 0, 0⟩).y ^ 2 +
        (stlNormal ⟨0, 0, 0⟩ ⟨0, 0, 0⟩ ⟨0, 0, 0⟩).z ^ 2) ≠ 1 := by
  have hc : stlNormal ⟨0, 0, 0⟩ ⟨0, 0, 0⟩ ⟨0, 0, 0⟩ = ⟨0, 0, 0⟩ := by
    simp [stlNormal, stlLen, crossVec]
  refine ⟨hc, ?_⟩
  rw [hc]
  norm_num

/-- Claim C4 (amended): for every non-degenerate triangle (nonzero cross
product of the edge vectors) the divisor is the nonzero cross-product length,
no component is a division by zero, and the emitted facet normal has
Euclidean length exactly `1` (in exact real arithmetic; the source writes it
with 4-decimal rounding).  Degenerate triangles do *not* propagate `NaN`
either — the `|| 1` fallback makes the divisor `1` — but they emit the zero
normal, as the counterexample shows. -/
theorem stl_nondegenerate_normal_unit (v1 v2 v3 : Vec3)
    (h : crossVec v1 v2 v3 ≠ ⟨0, 0, 0⟩) :
    stlLen v1 v2 v3 ≠ 0 ∧
    Real.sqrt ((stlNormal v1 v2 v3).x ^ 2 + (stlNormal v1 v2 v3).y ^ 2 +
      (stlNormal v1 v2 v3).z ^ 2) = 1 := by
  have hS0 : (crossVec v1 v2 v3).x * (crossVec v1 v2 v3).x +
      (crossVec v1 v2 v3).y * (crossVec v1 v2 v3).y +
      (crossVec v1 v2 v3).z * (crossVec v1 v2 v3).z ≠ 0 := by
    intro h0
    apply h
    have hx : (crossVec v1 v2 v3).x = 0 := by
      nlinarith [mul_self_nonneg (crossVec v1 v2 v3).x,
        mul_self_nonneg (crossVec v1 v2 v3).y, mul_self_nonneg (crossVec v1 v2 v3).z]
    have hy : (crossVec v1 v2 v3).y = 0 := by
      nlinarith [mul_self_nonneg (crossVec v1 v2 v3).x,
        mul_self_nonneg (crossVec v1 v2 v3).y, mul_self_nonneg (crossVec v1 v2 v3).z]
    have hz : (crossVec v1 v2 v3).z = 0 := by
      nlinarith [mul_self_nonneg (crossVec v1 v2 v3).x,
        mul_self_nonneg (crossVec v1 v2 v3).y, mul_self_nonneg (crossVec v1 v2 v3).z]
    ext <;> assumption
  have hS : 0 < (crossVec v1 v2 v3).x * (crossVec v1 v2 v3).x +
      (crossVec v1 v2 v3).y * (crossVec v1 v2 v3).y +
      (crossVec v1 v2 v3).z * (crossVec v1 v2 v3).z :=
    lt_of_le_of_ne
      (add_nonneg (add_nonneg (mul_self_nonneg _) (mul_self_nonneg _)) (mul_self_nonneg _))
      (Ne.symm hS0)
  have hsqrt : Real.sqrt ((crossVec v1 v2 v3).x * (crossVec v1 v2 v3).x +
      (crossVec v1 v2 v3).y * (crossVec v1 v2 v3).y +
      (crossVec v1 v2 v3).z * (crossVec v1 v2 v3).z) ≠ 0 := by
    intro hz
    exact absurd (Real.sqrt_eq_zero'.mp hz) (not_le.mpr hS)
  have hlen : stlLen v1 v2 v3 = Real.sqrt ((crossVec v1 v2 v3).x * (crossVec v1 v2 v3).x +
      (crossVec v1 v2 v3).y * (crossVec v1 v2 v3).y +
      (crossVec v1 v2 v3).z * (crossVec v1 v2 v3).z) := by
    simp only [stlLen]
    exact if_neg hsqrt
  refine ⟨by rw [hlen]; exact hsqrt, ?_⟩
  simp only [stlNormal, hlen]
  have hsq : Real.sqrt ((crossVec v1 v2 v3).x * (crossVec v1 v2 v3).x +
      (crossVec v1 v2 v3).y * (crossVec v1 v2 v3).y +
      (crossVec v1 v2 v3).z * (crossVec v1 v2 v3).z) ^ 2 =
      (crossVec v1 v2 v3).x * (crossVec v1 v2 v3).x +
      (crossVec v1 v2 v3).y * (crossVec v1 v2 v3).y +
      (crossVec v1 v2 v3).z * (crossVec v1 v2 v3).z := Real.sq_sqrt hS.le
  have hone : ((crossVec v1 v2 v3).x / Real.sqrt ((crossVec v1 v2 v3).x * (crossVec v1 v2 v3).x +
      (crossVec v1 v2 v3).y * (crossVec v1 v2 v3).y +
      (crossVec v1 v2 v3).z * (crossVec v1 v2 v3).z)) ^ 2 +
      ((crossVec v1 v2 v3).y / Real.sqrt ((crossVec v1 v2 v3).x * (crossVec v1 v2 v3).x +
      (crossVec v1 v2 v3).y * (crossVec v1 v2 v3).y +
      (crossVec v1 v2 v3).z * (crossVec v1 v2 v3).z)) ^ 2 +
      ((crossVec v1 v2 v3).z / Real.sqrt ((crossVec v1 v2 v3).x * (crossVec v1 v2 v3).x +
      (crossVec v1 v2 v3).y * (crossVec v1 v2 v3).y +
      (crossVec v1 v2 v3).z * (crossVec v1 v2 v3).z)) ^ 2 = 1 := by
    field_simp
    nlinarith [hsq]
  rw [hone, Real.sqrt_one]

/-- Each emitted extrusion value extends the previous one by a nonnegative
amount, so the whole tail starting from any `currentE` is a `≤`-chain. -/
lemma gcodeFrom_chain (params : VesselParams) (tex : Option TextureData)
    (hE : 0 ≤ ePerMM params) :
    ∀ (steps i : ℕ) (px py pz e0 : ℝ),
      List.Chain' (· ≤ ·)
        (e0 :: (gcodeFrom params tex i steps px py pz e0).map GStep.e) := by
  intro steps
  induction steps with
  | zero => intro i px py pz e0; simp [gcodeFrom]
  | succ n ih =>
    intro i px py pz e0
    simp only [gcodeFrom, List.map_cons]
    refine List.chain'_cons.mpr ⟨?_, ih (i + 1) _ _ _ _⟩
    exact le_add_of_nonneg_right (mul_nonneg (Real.sqrt_nonneg _) hE)

/-- Claim C6: for positive `height`, `layers`, `segments`, `nozzleDiameter`
and `filamentDiameter`, the sequence of cumulative extrusion values `E`
carried by the emitted `G1` moves of the G-code generator is monotonically
non-decreasing: each step adds `dist · ePerMM ≥ 0` to the running total. -/
theorem gcode_extrusion_monotone (params : VesselParams) (tex : Option TextureData)
    (hh : 0 < params.height) (hL : 1 ≤ params.layers) (hS : 1 ≤ params.segments)
    (hn : 0 < params.nozzleDiameter) (hf : 0 < params.filamentDiameter) :
    List.Chain' (· ≤ ·) ((gcodeSteps params tex).map GStep.e) := by
  have hE : 0 ≤ ePerMM params := by
    unfold ePerMM layerHeight filamentArea
    positivity
  exact (gcodeFrom_chain params tex hE (params.layers * params.segments) 1
    (gcodeStart params tex).x (gcodeStart params tex).z (layerHeight params) 0).tail

/-- Witness for the extrusion-monotonicity claim at the small vase-mode
configuration. -/
theorem gcode_extrusion_monotone_witness :
    (0 : ℝ) < paramsVaseSmall.height ∧ 1 ≤ paramsVaseSmall.layers ∧
    1 ≤ paramsVaseSmall.segments ∧ (0 : ℝ) < paramsVaseSmall.nozzleDiameter ∧
    (0 : ℝ) < paramsVaseSmall.filamentDiameter ∧
    List.Chain' (· ≤ ·) ((gcodeSteps paramsVaseSmall none).map GStep.e) :=
  ⟨by norm_num [paramsVaseSmall], by norm_num [paramsVaseSmall],
    by norm_num [paramsVaseSmall], by norm_num [paramsVaseSmall],
    by norm_num [paramsVaseSmall],
    gcode_extrusion_monotone paramsVaseSmall none (by norm_num [paramsVaseSmall])
      (by norm_num [paramsVaseSmall]) (by norm_num [paramsVaseSmall])
      (by norm_num [paramsVaseSmall]) (by norm_num [paramsVaseSmall])⟩

/-- Witness for the amended STL-normal claim at a concrete non-degenerate
triangle. -/
theorem stl_nondegenerate_normal_unit_witness :
    crossVec ⟨0, 0, 0⟩ ⟨1, 0, 0⟩ ⟨0, 1, 0⟩ ≠ ⟨0, 0, 0⟩ ∧
    Real.sqrt ((stlNormal ⟨0, 0, 0⟩ ⟨1, 0, 0⟩ ⟨0, 1, 0⟩).x ^ 2 +
      (stlNormal ⟨0, 0, 0⟩ ⟨1, 0, 0⟩ ⟨0, 1, 0⟩).y ^ 2 +
      (stlNormal ⟨0, 0, 0⟩ ⟨1, 0, 0⟩ ⟨0, 1, 0⟩).z ^ 2) = 1 :=
  ⟨by norm_num [crossVec, Vec3.mk.injEq],
    (stl_nondegenerate_normal_unit ⟨0, 0, 0⟩ ⟨1, 0, 0⟩ ⟨0, 1, 0⟩
      (by norm_num [crossVec, Vec3.mk.injEq])).2⟩

end

end Ceramic
